import Mathlib

/-! Verification of the `jfi_comm` serial bridge (`src/src/jfi_comm/src/jfi_comm.cpp`)

Shallow embedding of the transport + framing + dispatch engine of the
`ros2serial_bridge` repository.  The single C++ source file `jfi_comm.cpp`
implements:

* `JFiComm::openPort` / `JFiComm::closePort` / `JFiComm::writeData` — the Port
  Handle over an OS serial descriptor `fd_`, guarded by `fd_mutex_`;
* `JFiComm::send` — encode one JFI message (MAVLink frame) and write it;
* `JFiComm::recvMavLoop` — the Receiver Loop feeding bytes through
  `mavlink_parse_char` and dispatching decoded JFI frames to the callback;
* `JFiComm::init` — store callback/identity, open the port, start the loop.

The MAVLink framing library (`mavlink_parse_char`, `mavlink_msg_jfi_encode`,
`mavlink_msg_jfi_decode`, the JFI dialect header) is repository code that is
not present under `src/`; those parts are modelled from the spec (each such
definition carries a `Modelled from the spec:` doc comment).  Bytes are `Nat`
values with explicit `% 256` / `% 65536` masking where the code overflows.
-/

namespace JFi

/-! Section: Wire constants

`Modelled from the spec:` the wire frame is an externally specified binary
telemetry protocol (MAVLink v1 style): a start byte, a header (length,
sequence, system id, component id, message id), the payload, and a two-byte
checksum seeded with a per-message extra byte.  The exact numeric values of
the start byte, the JFI message id, the per-message checksum seed and the
JFI payload capacity live in the dialect header missing from `src/`; the
values chosen here are representative and no theorem depends on them. -/

/-- Frame start byte. -/
def STX : Nat := 254

/-- Modelled from the spec: the one recognized message id
(`MAVLINK_MSG_ID_JFI`); the exact value comes from the missing dialect
header. -/
def MSG_ID_JFI : Nat := 128

/-- Modelled from the spec: the per-message checksum seed byte
(`CRC_EXTRA`) of the JFI message, from the missing dialect header. -/
def CRC_EXTRA_JFI : Nat := 217

/-- Modelled from the spec: the JFI frame's maximum payload capacity
(`sizeof(jfi_msg.data)`), "tens of bytes"; the exact value comes from the
missing dialect header. -/
def MAX_JFI_DATA : Nat := 64

/-! Section: Checksum

`Modelled from the spec:` "computes and appends checksum/framing bytes" —
the MAVLink CRC-16/MCRF4XX accumulator, one byte at a time, over the header
and payload bytes followed by the per-message extra byte. -/

/-- CRC initial value. -/
def crcInit : Nat := 65535

/-- Accumulate one byte `b` into the 16-bit running checksum `crc`. -/
def crcAccumulate (crc b : Nat) : Nat :=
  let tmp := (b ^^^ (crc % 256)) % 256
  let tmp2 := (tmp ^^^ ((tmp * 16) % 256)) % 256
  ((crc / 256) ^^^ ((tmp2 * 256) % 65536) ^^^ ((tmp2 * 8) % 65536) ^^^ (tmp2 / 16)) % 65536

/-- Accumulate a list of bytes into a running checksum. -/
def crcList (crc : Nat) (bs : List Nat) : Nat := bs.foldl crcAccumulate crc

/-! Section: Frames and the encoder -/

/-- A decoded wire frame (`mavlink_message_t`): header fields plus payload. -/
structure MavFrame where
  len : Nat
  seq : Nat
  sysid : Nat
  compid : Nat
  msgid : Nat
  payload : List Nat
deriving Repr, DecidableEq

/-- The checksum of a frame: over `len, seq, sysid, compid, msgid`, the
payload, and the per-message extra byte. -/
def frameCrc (f : MavFrame) : Nat :=
  crcList crcInit ([f.len, f.seq, f.sysid, f.compid, f.msgid] ++ f.payload ++ [CRC_EXTRA_JFI])

/-- Modelled from the spec: `mavlink_msg_to_send_buffer` — serialize a
frame: start byte, header, payload, then checksum low byte and high byte. -/
def frameBytes (f : MavFrame) : List Nat :=
  let c := frameCrc f
  STX :: f.len :: f.seq :: f.sysid :: f.compid :: f.msgid :: (f.payload ++ [c % 256, c / 256])

/-! Section: The incremental parser

`Modelled from the spec:` `mavlink_parse_char` — "a byte-stream state machine
with states {waiting-for-start, reading-header, reading-payload,
verifying-checksum} collapsing back to waiting-for-start on any validation
failure", maintaining a small rolling parse state across calls. -/

/-- Parser phase. -/
inductive Phase where
  | idle
  | gotStx
  | gotLen
  | gotSeq
  | gotSysid
  | gotCompid
  | inPayload
  | awaitCrc1
  | awaitCrc2
deriving Repr, DecidableEq

/-- Rolling parse state (`mavlink_status_t` plus the partial
`mavlink_message_t` being assembled). -/
structure ParseState where
  phase : Phase := .idle
  len : Nat := 0
  seq : Nat := 0
  sysid : Nat := 0
  compid : Nat := 0
  msgid : Nat := 0
  payload : List Nat := []
  crc : Nat := 0
deriving Repr, DecidableEq

/-- The parser's start state. -/
def initState : ParseState := {}

/-- Feed one byte to the parser; returns the next state and the decoded
frame, if this byte completed one. -/
def parseChar (s : ParseState) (b : Nat) : ParseState × Option MavFrame :=
  match s.phase with
  | .idle =>
      if b = STX then ({ initState with phase := .gotStx }, none) else (initState, none)
  | .gotStx =>
      ({ s with phase := .gotLen, len := b, crc := crcAccumulate crcInit b }, none)
  | .gotLen =>
      ({ s with phase := .gotSeq, seq := b, crc := crcAccumulate s.crc b }, none)
  | .gotSeq =>
      ({ s with phase := .gotSysid, sysid := b, crc := crcAccumulate s.crc b }, none)
  | .gotSysid =>
      ({ s with phase := .gotCompid, compid := b, crc := crcAccumulate s.crc b }, none)
  | .gotCompid =>
      let c := crcAccumulate s.crc b
      if s.len = 0 then
        ({ s with phase := .awaitCrc1, msgid := b, crc := crcAccumulate c CRC_EXTRA_JFI }, none)
      else
        ({ s with phase := .inPayload, msgid := b, crc := c }, none)
  | .inPayload =>
      let pl := s.payload ++ [b]
      let c := crcAccumulate s.crc b
      if pl.length = s.len then
        ({ s with phase := .awaitCrc1, payload := pl, crc := crcAccumulate c CRC_EXTRA_JFI }, none)
      else
        ({ s with phase := .inPayload, payload := pl, crc := c }, none)
  | .awaitCrc1 =>
      if b = s.crc % 256 then ({ s with phase := .awaitCrc2 }, none) else (initState, none)
  | .awaitCrc2 =>
      if b = s.crc / 256 then
        (initState, some ⟨s.len, s.seq, s.sysid, s.compid, s.msgid, s.payload⟩)
      else (initState, none)

/-- Feed a list of bytes through the parser, collecting every decoded frame
in order (the Receiver Loop's inner `for` over the bytes just read). -/
def feed : ParseState → List Nat → ParseState × List MavFrame
  | s, [] => (s, [])
  | s, b :: bs =>
      ((feed (parseChar s b).1 bs).1, (parseChar s b).2.toList ++ (feed (parseChar s b).1 bs).2)

/-! Section: The JFI message layer

The encode path of `JFiComm::send` (lines 177-199): truncate the payload to
`sizeof(jfi_msg.data)`, set `jfi_msg.len`, stamp `system_id_`/`component_id_`,
and serialize.  The MAVLink payload layout of the JFI message (`Modelled from
the spec:` "a tag (1 byte), a payload length, and a payload buffer (fixed
maximum capacity)", from the missing dialect header) is `tid` then `len` then
the fixed-capacity `data` buffer; bytes past `jfi_msg.len` are unspecified in
the C struct and modelled as zero. -/

/-- MAVLink payload of a JFI message built by `JFiComm::send`:
`copy_len = min(data.size(), sizeof(jfi_msg.data))` bytes are copied and
`jfi_msg.len = copy_len` (lines 184-187). -/
def jfiPayload (tid : Nat) (data : List Nat) : List Nat :=
  let copyLen := min data.length MAX_JFI_DATA
  tid :: copyLen :: (data.take copyLen ++ List.replicate (MAX_JFI_DATA - copyLen) 0)

/-- The full frame built by `JFiComm::send` for tag `tid`, payload `data` and
identity `(sys, comp)`; the sequence number of the fresh channel is 0. -/
def sendFrame (sys comp tid : Nat) (data : List Nat) : MavFrame :=
  ⟨MAX_JFI_DATA + 2, 0, sys, comp, MSG_ID_JFI, jfiPayload tid data⟩

/-- The bytes `JFiComm::send` hands to `writeData`
(`mavlink_msg_jfi_encode` + `mavlink_msg_to_send_buffer`). -/
def sendEncode (sys comp tid : Nat) (data : List Nat) : List Nat :=
  frameBytes (sendFrame sys comp tid data)

/-- Tag field of a JFI payload (`jfi_msg_.tid`). -/
def jfiTid (payload : List Nat) : Nat := payload.getD 0 0

/-- Length field of a JFI payload (`jfi_msg_.len`). -/
def jfiLen (payload : List Nat) : Nat := payload.getD 1 0

/-- Data buffer of a JFI payload (`jfi_msg_.data`). -/
def jfiData (payload : List Nat) : List Nat := payload.drop 2

/-- The dispatch step of `JFiComm::recvMavLoop` on one decoded frame (lines
80-90): if `message.msgid == MAVLINK_MSG_ID_JFI`, decode it and invoke the
callback with `(jfi_msg_.tid, first jfi_msg_.len bytes of jfi_msg_.data)`;
any other message id is logged and dropped (`none`). -/
def handleMessage (f : MavFrame) : Option (Nat × List Nat) :=
  if f.msgid = MSG_ID_JFI then
    some (jfiTid f.payload, (jfiData f.payload).take (jfiLen f.payload))
  else none

/-! Section: The Port Handle (`openPort` / `closePort` / `writeData`)

`JFiComm::openPort` (lines 96-165), transcribed over an explicit outcome of
the three fallible OS calls it makes (`::open`, `tcgetattr`, `tcsetattr`).
The descriptor field `fd_` is an `Int`, `-1` when closed. -/

/-- Outcomes of the OS calls `openPort` makes: `openRet = some fd` when
`::open` returns descriptor `fd ≥ 0`, `none` when it fails (returns -1);
`tcgetOk` / `tcsetOk` tell whether `tcgetattr` / `tcsetattr` return 0. -/
structure OsEnv where
  openRet : Option Nat
  tcgetOk : Bool
  tcsetOk : Bool
deriving Repr, DecidableEq

/-- The baud-rate `switch` of `openPort` (lines 119-140): map the requested
rate to the applied rate, defaulting to 115200 on any unsupported value. -/
def mapBaud (b : Int) : Nat :=
  if b = 9600 then 9600
  else if b = 19200 then 19200
  else if b = 38400 then 38400
  else if b = 57600 then 57600
  else if b = 115200 then 115200
  else 115200

/-- The supported baud-rate set of the `switch` in `openPort`. -/
def supportedBauds : List Int := [9600, 19200, 38400, 57600, 115200]

/-- Result of `openPort`: final descriptor field, the returned boolean,
the baud rate actually applied to the device (`none` when the call never
reached a successful `tcsetattr`), and whether this call acquired
(`osOpened`) and released (`osClosed`) an OS descriptor. -/
structure OpenResult where
  fd : Int
  ok : Bool
  appliedBaud : Option Nat
  osOpened : Bool
  osClosed : Bool
deriving Repr, DecidableEq

/-- Transcription of `JFiComm::openPort` (lines 96-165): no-op success if `fd_ >= 0`;
otherwise `::open`, `tcgetattr`, the baud `switch`, 8N1/raw configuration,
`tcsetattr`, `tcflush`.  On any failure the acquired descriptor (if any) is
closed with `::close` and `fd_` is reset to -1. -/
def openPort (fd0 : Int) (env : OsEnv) (baud : Int) : OpenResult :=
  if fd0 ≥ 0 then
    { fd := fd0, ok := true, appliedBaud := none, osOpened := false, osClosed := false }
  else
    match env.openRet with
    | none =>
        { fd := -1, ok := false, appliedBaud := none, osOpened := false, osClosed := false }
    | some fd =>
        if env.tcgetOk = false then
          { fd := -1, ok := false, appliedBaud := none, osOpened := true, osClosed := true }
        else if env.tcsetOk = false then
          { fd := -1, ok := false, appliedBaud := none, osOpened := true, osClosed := true }
        else
          { fd := (fd : Int), ok := true, appliedBaud := some (mapBaud baud),
            osOpened := true, osClosed := false }

/-- Transcription of `JFiComm::closePort` (lines 167-175): release the descriptor if held,
otherwise a no-op. -/
def closePort (fd0 : Int) : Int :=
  if fd0 ≥ 0 then -1 else fd0

/-- Transcription of `JFiComm::writeData` (lines 201-211): returns the bytes handed to
`::write`, or `none` when `fd_ < 0` (the write is silently skipped). -/
def writeData (fd0 : Int) (data : List Nat) : Option (List Nat) :=
  if fd0 < 0 then none else some data

/-! Section: The Transport Facade (`init` / `send`) -/

/-- Fields of the `JFiComm` object relevant to the facade: the descriptor,
the `running_` flag, whether `mav_recv_thread_` has been started, the stored
identity, and the stored callback (identified by an opaque id, `none` when
`receive_callback_` is empty). -/
structure FacadeState where
  fd : Int
  running : Bool
  threadStarted : Bool
  sysId : Nat
  compId : Nat
  callback : Option Nat
deriving Repr, DecidableEq

/-- The state the `JFiComm` constructor (lines 12-18) establishes:
`fd_ = -1`, `running_ = false`, no thread, identity `(1, 1)`, no callback. -/
def freshState : FacadeState :=
  { fd := -1, running := false, threadStarted := false, sysId := 1, compId := 1,
    callback := none }

/-- Result of `JFiComm::init`: the new object state and the returned bool. -/
structure InitResult where
  state : FacadeState
  ok : Bool
deriving Repr, DecidableEq

/-- Transcription of `JFiComm::init` (lines 30-48): store the callback and identity first,
then `openPort`; only on success set `running_` and start the receiver
thread. -/
def init (s : FacadeState) (env : OsEnv) (cb : Nat) (baud : Int)
    (sysId compId : Nat) : InitResult :=
  let s1 := { s with callback := some cb, sysId := sysId, compId := compId }
  let o := openPort s1.fd env baud
  if o.ok then
    ⟨{ s1 with fd := o.fd, running := true, threadStarted := true }, true⟩
  else
    ⟨{ s1 with fd := o.fd }, false⟩

/-- Result of one `JFiComm::send` call: the encoded frame bytes, the bytes
actually handed to `::write` (`none` when the port is closed and the write
silently no-ops), and whether any error was surfaced to the caller (`send`
and `writeData` return `void` and throw nothing, so this is always
`false`). -/
structure SendResult where
  encoded : List Nat
  written : Option (List Nat)
  raised : Bool
deriving Repr, DecidableEq

/-- Transcription of `JFiComm::send` (lines 177-199): always encode, then `writeData`. -/
def send (s : FacadeState) (tid : Nat) (data : List Nat) : SendResult :=
  let buf := sendEncode s.sysId s.compId tid data
  { encoded := buf, written := writeData s.fd buf, raised := false }

/-! Section: Descriptor accesses and the lock

`fd_mutex_` discipline, transcribed access-by-access from the source: which
code touches `fd_` (or the OS descriptor it names), in which function, and
whether that access happens inside a `std::lock_guard<std::mutex>` scope.
In `recvMavLoop` the guard's scope (lines 56-63) ends before the `::read`
call on line 66. -/

/-- One access to the serial descriptor in the source, with the enclosing
function, the kind of access, and whether the `fd_mutex_` lock is held. -/
structure FdAccess where
  fn : String
  op : String
  underLock : Bool
deriving Repr, DecidableEq

/-- Every access to `fd_` / the OS descriptor in `jfi_comm.cpp`, in source
order. -/
def fdAccesses : List FdAccess :=
  [ ⟨"recvMavLoop", "check", true⟩,     -- line 58, inside guard 56-63
    ⟨"recvMavLoop", "read", false⟩,     -- line 66, guard already released
    ⟨"openPort", "check", true⟩,        -- line 99
    ⟨"openPort", "open", true⟩,         -- line 103
    ⟨"openPort", "tcgetattr", true⟩,    -- line 111
    ⟨"openPort", "close", true⟩,        -- lines 113, 156 (failure paths)
    ⟨"openPort", "tcsetattr", true⟩,    -- line 154
    ⟨"openPort", "tcflush", true⟩,      -- line 161
    ⟨"closePort", "check", true⟩,       -- line 170
    ⟨"closePort", "close", true⟩,       -- line 171
    ⟨"writeData", "check", true⟩,       -- line 204
    ⟨"writeData", "write", true⟩ ]      -- line 207

/-! A small interleaving model of the receiver loop's check-then-read
against `closePort`.  The loop body is two atomic sections — the locked
`fd_ < 0` check (lines 56-63) and the unlocked `::read(fd_, ...)` (line 66)
— and `closePort` is one locked atomic section; because the read holds no
lock, the mutex permits any interleaving of these three actions. -/

/-- Shared state of the two-thread race model: the descriptor, whether the
loop's locked check has passed, and the descriptor value `::read` was
invoked on (if the read has executed). -/
structure RaceState where
  fd : Int
  checkPassed : Bool
  readOnFd : Option Int
deriving Repr, DecidableEq

/-- The three atomic actions: the loop's locked check, the loop's unlocked
read, and `closePort`'s locked close. -/
inductive RaceAct where
  | loopCheck
  | loopRead
  | closeCall
deriving Repr, DecidableEq

/-- Effect of one atomic action on the shared state. -/
def raceStep (s : RaceState) : RaceAct → RaceState
  | .loopCheck => { s with checkPassed := s.fd ≥ 0 }
  | .loopRead => if s.checkPassed then { s with readOnFd := some s.fd } else s
  | .closeCall => if s.fd ≥ 0 then { s with fd := -1 } else s

/-- Run a schedule of atomic actions. -/
def raceRun (s : RaceState) : List RaceAct → RaceState
  | [] => s
  | a :: rest => raceRun (raceStep s a) rest

/-- Helper for `interleavings`, structurally recursive on a fuel argument
(so that concrete instances reduce); with fuel at least the total number of
actions the last case is never reached. -/
def interleavingsAux : Nat → List RaceAct → List RaceAct → List (List RaceAct)
  | _, [], ys => [ys]
  | _, x :: xs, [] => [x :: xs]
  | Nat.succ n, x :: xs, y :: ys =>
      (interleavingsAux n xs (y :: ys)).map (fun l => x :: l) ++
      (interleavingsAux n (x :: xs) ys).map (fun l => y :: l)
  | 0, _ :: _, _ :: _ => []

/-- All interleavings of two threads' action sequences (each action is one
atomic, lock-respecting section, so the mutex excludes none of these). -/
def interleavings (xs ys : List RaceAct) : List (List RaceAct) :=
  interleavingsAux (xs.length + ys.length) xs ys

/-- A loop iteration whose check passed with the port open on descriptor 3,
interleaved with one `closePort` call. -/
def raceInit : RaceState := { fd := 3, checkPassed := false, readOnFd := none }

/-! Section: Parser lemmas -/

theorem feed_nil (s : ParseState) : feed s [] = (s, []) := rfl

theorem feed_cons (s : ParseState) (b : Nat) (bs : List Nat) :
    feed s (b :: bs) =
      ((feed (parseChar s b).1 bs).1,
       (parseChar s b).2.toList ++ (feed (parseChar s b).1 bs).2) := rfl

theorem crcList_append (c : Nat) (xs ys : List Nat) :
    crcList c (xs ++ ys) = crcList (crcList c xs) ys := by
  simp [crcList, List.foldl_append]

/-- Feeding the remaining payload bytes while in the `inPayload` phase
collects them in order, accumulates them (and then the extra byte) into the
checksum, and moves to `awaitCrc1`. -/
theorem feed_payload :
    ∀ (rest done tail : List Nat) (L sq sy co ms c : Nat),
      rest ≠ [] → L = done.length + rest.length →
      feed ⟨.inPayload, L, sq, sy, co, ms, done, c⟩ (rest ++ tail) =
        feed ⟨.awaitCrc1, L, sq, sy, co, ms, done ++ rest,
              crcAccumulate (crcList c rest) CRC_EXTRA_JFI⟩ tail := by
  intro rest
  induction rest with
  | nil => intro done tail L sq sy co ms c hne _; exact absurd rfl hne
  | cons b bs ih =>
    intro done tail L sq sy co ms c _ hlen
    rcases hbs : bs with _ | ⟨b2, bs2⟩
    · subst hbs
      have hlen' : L = done.length + 1 := by simpa using hlen
      rw [show ([b] ++ tail) = b :: tail from rfl, feed_cons]
      have hpc : parseChar ⟨.inPayload, L, sq, sy, co, ms, done, c⟩ b =
          (⟨.awaitCrc1, L, sq, sy, co, ms, done ++ [b],
            crcAccumulate (crcAccumulate c b) CRC_EXTRA_JFI⟩, none) := by
        simp only [parseChar]
        rw [if_pos (show (done ++ [b]).length = L by simp [hlen'])]
      rw [hpc]
      simp [crcList]
    · subst hbs
      have hlen' : L = done.length + (bs2.length + 2) := by simp at hlen; omega
      rw [show ((b :: b2 :: bs2) ++ tail) = b :: ((b2 :: bs2) ++ tail) from rfl, feed_cons]
      have hpc : parseChar ⟨.inPayload, L, sq, sy, co, ms, done, c⟩ b =
          (⟨.inPayload, L, sq, sy, co, ms, done ++ [b], crcAccumulate c b⟩, none) := by
        simp only [parseChar]
        rw [if_neg (show ¬(done ++ [b]).length = L by simp [hlen'])]
      rw [hpc]
      have hrec := ih (done ++ [b]) tail L sq sy co ms (crcAccumulate c b)
        (by simp) (by simp at hlen ⊢; omega)
      simp only [Option.toList_none, List.nil_append]
      rw [hrec]
      simp [crcList, List.append_assoc]

/-- Feeding the start byte and the five header bytes from the start state
reaches the `inPayload` phase with the header stored and accumulated into
the checksum (for any frame with a nonzero length byte). -/
theorem feed_header (L sq sy co ms : Nat) (rest : List Nat) (hL : L ≠ 0) :
    feed initState (STX :: L :: sq :: sy :: co :: ms :: rest) =
      feed ⟨.inPayload, L, sq, sy, co, ms, [],
            crcList crcInit [L, sq, sy, co, ms]⟩ rest := by
  simp [feed_cons, parseChar, initState, STX, crcList, hL]

/-- Round-trip through the wire format: serializing any well-formed frame
(length byte equal to the payload length, nonempty payload) and feeding the
bytes to the parser from its start state decodes exactly that frame and
returns the parser to its start state. -/
theorem feed_frameBytes (f : MavFrame) (hlen : f.len = f.payload.length)
    (hne : f.payload ≠ []) :
    feed initState (frameBytes f) = (initState, [f]) := by
  obtain ⟨L, sq, sy, co, ms, pl⟩ := f
  simp only at hlen hne
  have hL : L ≠ 0 := by
    rcases pl with _ | ⟨p, pl2⟩
    · exact absurd rfl hne
    · simp [hlen]
  rw [show frameBytes ⟨L, sq, sy, co, ms, pl⟩ =
        STX :: L :: sq :: sy :: co :: ms ::
          (pl ++ [frameCrc ⟨L, sq, sy, co, ms, pl⟩ % 256,
                  frameCrc ⟨L, sq, sy, co, ms, pl⟩ / 256]) from rfl]
  rw [feed_header L sq sy co ms _ hL]
  rw [feed_payload pl [] _ L sq sy co ms _ hne (by simpa using hlen)]
  have hC : crcAccumulate (crcList (crcList crcInit [L, sq, sy, co, ms]) pl) CRC_EXTRA_JFI =
      frameCrc ⟨L, sq, sy, co, ms, pl⟩ := by
    simp [frameCrc, crcList_append, crcList]
  rw [hC]
  simp [feed_cons, feed_nil, parseChar]

/-! Section: Claims -/

/-- C1: for every payload `data` of length at most the frame's maximum
payload capacity, every tag `tid` and every identity `(sys, comp)`, encoding
via `JFiComm::send`'s encode path and feeding the resulting bytes through
the codec's decode path yields exactly one decoded frame, and dispatching
that frame yields tag `tid` and the payload bytes unchanged. -/
theorem roundtrip_send_decode (sys comp tid : Nat) (data : List Nat)
    (hlen : data.length ≤ MAX_JFI_DATA) :
    feed initState (sendEncode sys comp tid data) =
      (initState, [sendFrame sys comp tid data]) ∧
    handleMessage (sendFrame sys comp tid data) = some (tid, data) := by
  have hmin : min data.length MAX_JFI_DATA = data.length := min_eq_left hlen
  constructor
  · apply feed_frameBytes
    · simp [sendFrame, jfiPayload]
    · simp [sendFrame, jfiPayload]
  · simp [handleMessage, sendFrame, jfiTid, jfiLen, jfiData, jfiPayload, hmin,
      List.take_length]

/-- Witness for C1 at a concrete input. -/
theorem roundtrip_send_decode_witness :
    ([1, 2, 3] : List Nat).length ≤ MAX_JFI_DATA ∧
    (feed initState (sendEncode 5 6 7 [1, 2, 3]) =
       (initState, [sendFrame 5 6 7 [1, 2, 3]]) ∧
     handleMessage (sendFrame 5 6 7 [1, 2, 3]) = some (7, [1, 2, 3])) :=
  ⟨by decide, roundtrip_send_decode 5 6 7 [1, 2, 3] (by decide)⟩

/-- C2: encoding a payload longer than the maximum capacity never fails (the
encode path is a total function), the decoded payload equals exactly the
first `MAX_JFI_DATA` bytes of the input, and the frame's length field equals
the maximum capacity. -/
theorem truncation_send_decode (sys comp tid : Nat) (data : List Nat)
    (hlen : MAX_JFI_DATA < data.length) :
    feed initState (sendEncode sys comp tid data) =
      (initState, [sendFrame sys comp tid data]) ∧
    handleMessage (sendFrame sys comp tid data) =
      some (tid, data.take MAX_JFI_DATA) ∧
    jfiLen (sendFrame sys comp tid data).payload = MAX_JFI_DATA := by
  have hmin : min data.length MAX_JFI_DATA = MAX_JFI_DATA := min_eq_right hlen.le
  refine ⟨?_, ?_, ?_⟩
  · apply feed_frameBytes
    · simp [sendFrame, jfiPayload]
    · simp [sendFrame, jfiPayload]
  · simp [handleMessage, sendFrame, jfiTid, jfiLen, jfiData, jfiPayload, hmin,
      List.take_take]
  · simp [sendFrame, jfiLen, jfiPayload, hmin]

/-- Witness for C2 at a concrete input. -/
theorem truncation_send_decode_witness :
    MAX_JFI_DATA < (List.range 70).length ∧
    (feed initState (sendEncode 5 6 7 (List.range 70)) =
       (initState, [sendFrame 5 6 7 (List.range 70)]) ∧
     handleMessage (sendFrame 5 6 7 (List.range 70)) =
       some (7, (List.range 70).take MAX_JFI_DATA) ∧
     jfiLen (sendFrame 5 6 7 (List.range 70)).payload = MAX_JFI_DATA) :=
  ⟨by decide, truncation_send_decode 5 6 7 (List.range 70) (by decide)⟩

/-- C3 counterexample: it is not the case that every descriptor access in
the source holds the lock and that every lock-permitted interleaving of one
loop iteration with one `closePort` call keeps the read on a valid
descriptor — the `::read` on line 66 runs after the guard of lines 56-63 is
released. -/
theorem lock_claim_counterexample :
    ¬ ((∀ a ∈ fdAccesses, a.underLock = true) ∧
       ∀ sched ∈ interleavings [RaceAct.loopCheck, RaceAct.loopRead]
           [RaceAct.closeCall],
         0 ≤ (raceRun raceInit sched).readOnFd.getD 0) := by
  decide

/-- C3 amended: every descriptor access except the Receiver Loop's `::read`
holds the lock; the read itself runs unlocked, so the mutex permits exactly three
interleavings of one loop iteration with one `closePort` call, among them
check–close–read, in which the read is invoked on an already-closed
descriptor. -/
theorem lock_discipline_amended :
    (∀ a ∈ fdAccesses,
       a.underLock = true ∨ (a.fn = "recvMavLoop" ∧ a.op = "read")) ∧
    interleavings [RaceAct.loopCheck, RaceAct.loopRead] [RaceAct.closeCall] =
      [[RaceAct.loopCheck, RaceAct.loopRead, RaceAct.closeCall],
       [RaceAct.loopCheck, RaceAct.closeCall, RaceAct.loopRead],
       [RaceAct.closeCall, RaceAct.loopCheck, RaceAct.loopRead]] ∧
    (raceRun raceInit
        [RaceAct.loopCheck, RaceAct.closeCall, RaceAct.loopRead]).readOnFd =
      some (-1) := by
  decide

/-- Witness for C3's amended statement: the racy schedule really makes the
read run on the closed descriptor value. -/
theorem lock_discipline_amended_witness :
    (raceRun raceInit
        [RaceAct.loopCheck, RaceAct.closeCall, RaceAct.loopRead]).readOnFd =
      some (-1) :=
  lock_discipline_amended.2.2

/-- C4: when the three OS calls succeed on a closed port, `openPort`
succeeds and applies exactly the requested baud rate if it is in the
supported set, and the default 115200 otherwise. -/
theorem openPort_baud (fd0 : Int) (env : OsEnv) (baud : Int)
    (hclosed : fd0 < 0) (hopen : env.openRet.isSome = true)
    (hget : env.tcgetOk = true) (hset : env.tcsetOk = true) :
    (openPort fd0 env baud).ok = true ∧
    (openPort fd0 env baud).appliedBaud = some (mapBaud baud) ∧
    (baud ∈ supportedBauds → mapBaud baud = baud.toNat) ∧
    (baud ∉ supportedBauds → mapBaud baud = 115200) := by
  obtain ⟨fd, hfd⟩ := Option.isSome_iff_exists.mp hopen
  refine ⟨?_, ?_, ?_, ?_⟩
  · simp [openPort, hfd, hget, hset, not_le.mpr hclosed]
  · simp [openPort, hfd, hget, hset, not_le.mpr hclosed]
  · intro h
    fin_cases h <;> rfl
  · intro h
    simp only [supportedBauds, List.mem_cons, List.not_mem_nil, or_false] at h
    push_neg at h
    obtain ⟨h1, h2, h3, h4, h5⟩ := h
    simp [mapBaud, h1, h2, h3, h4, h5]

/-- Witness for C4 at a concrete input (a supported rate). -/
theorem openPort_baud_witness :
    ((-1 : Int) < 0 ∧ (OsEnv.mk (some 3) true true).openRet.isSome = true ∧
     (OsEnv.mk (some 3) true true).tcgetOk = true ∧
     (OsEnv.mk (some 3) true true).tcsetOk = true) ∧
    ((openPort (-1) (OsEnv.mk (some 3) true true) 57600).ok = true ∧
     (openPort (-1) (OsEnv.mk (some 3) true true) 57600).appliedBaud =
       some (mapBaud 57600) ∧
     (57600 ∈ supportedBauds → mapBaud 57600 = (57600 : Int).toNat) ∧
     ((57600 : Int) ∉ supportedBauds → mapBaud 57600 = 115200)) :=
  ⟨⟨by decide, rfl, rfl, rfl⟩,
   openPort_baud (-1) (OsEnv.mk (some 3) true true) 57600 (by decide) rfl rfl rfl⟩

/-- C5: whenever `openPort` fails — at `::open`, `tcgetattr` or `tcsetattr`
— it returns failure with the descriptor field reset to the closed value -1,
and any descriptor it acquired has been closed again (no leak). -/
theorem openPort_fail_closed (fd0 : Int) (env : OsEnv) (baud : Int)
    (h : (openPort fd0 env baud).ok = false) :
    (openPort fd0 env baud).fd = -1 ∧
    ((openPort fd0 env baud).osOpened = true →
      (openPort fd0 env baud).osClosed = true) := by
  rcases env with ⟨openRet, tcget, tcset⟩
  unfold openPort at h ⊢
  by_cases h0 : fd0 ≥ 0
  · rw [if_pos h0] at h
    simp at h
  · rw [if_neg h0] at h ⊢
    rcases openRet with _ | fd <;> cases tcget <;> cases tcset <;> simp_all

/-- Witness for C5 at a concrete input (`tcgetattr` fails). -/
theorem openPort_fail_closed_witness :
    (openPort (-1) (OsEnv.mk (some 3) false true) 9600).ok = false ∧
    ((openPort (-1) (OsEnv.mk (some 3) false true) 9600).fd = -1 ∧
     ((openPort (-1) (OsEnv.mk (some 3) false true) 9600).osOpened = true →
       (openPort (-1) (OsEnv.mk (some 3) false true) 9600).osClosed = true)) :=
  ⟨by decide, openPort_fail_closed (-1) (OsEnv.mk (some 3) false true) 9600 (by decide)⟩

/-- C6: starting from a not-yet-running object, `init` starts the receiver
thread and sets the running flag exactly when opening the port succeeded,
and its returned boolean is exactly `openPort`'s result. -/
theorem init_thread_iff_open (s : FacadeState) (env : OsEnv) (cb : Nat)
    (baud : Int) (sysId compId : Nat)
    (hrun : s.running = false) (hthr : s.threadStarted = false) :
    (init s env cb baud sysId compId).ok = (openPort s.fd env baud).ok ∧
    (init s env cb baud sysId compId).state.threadStarted =
      (init s env cb baud sysId compId).ok ∧
    (init s env cb baud sysId compId).state.running =
      (init s env cb baud sysId compId).ok := by
  cases h : (openPort s.fd env baud).ok <;> simp [init, h, hrun, hthr]

/-- Witness for C6 at a concrete input (open fails, thread not started). -/
theorem init_thread_iff_open_witness :
    (freshState.running = false ∧ freshState.threadStarted = false) ∧
    ((init freshState (OsEnv.mk none true true) 9 0 42 24).ok =
       (openPort freshState.fd (OsEnv.mk none true true) 0).ok ∧
     (init freshState (OsEnv.mk none true true) 9 0 42 24).state.threadStarted =
       (init freshState (OsEnv.mk none true true) 9 0 42 24).ok ∧
     (init freshState (OsEnv.mk none true true) 9 0 42 24).state.running =
       (init freshState (OsEnv.mk none true true) 9 0 42 24).ok) :=
  ⟨⟨rfl, rfl⟩, init_thread_iff_open freshState (OsEnv.mk none true true) 9 0 42 24 rfl rfl⟩

/-- C7: `send` on a closed (never opened or already closed) transport
surfaces no error to the caller, still runs the encode step, and the write
step silently drops the bytes. -/
theorem send_closed_silent (s : FacadeState) (tid : Nat) (data : List Nat)
    (h : s.fd < 0) :
    (send s tid data).raised = false ∧
    (send s tid data).written = none ∧
    (send s tid data).encoded = sendEncode s.sysId s.compId tid data := by
  simp [send, writeData, h]

/-- Witness for C7 at a concrete input (a freshly constructed object). -/
theorem send_closed_silent_witness :
    freshState.fd < 0 ∧
    ((send freshState 1 [2, 3]).raised = false ∧
     (send freshState 1 [2, 3]).written = none ∧
     (send freshState 1 [2, 3]).encoded =
       sendEncode freshState.sysId freshState.compId 1 [2, 3]) :=
  ⟨by decide, send_closed_silent freshState 1 [2, 3] (by decide)⟩

/-- C8: calling `openPort` while a descriptor is already held returns
success immediately, leaves the descriptor unchanged, applies no
configuration, and acquires no second OS resource. -/
theorem openPort_idempotent (fd0 : Int) (env : OsEnv) (baud : Int)
    (h : fd0 ≥ 0) :
    openPort fd0 env baud =
      { fd := fd0, ok := true, appliedBaud := none,
        osOpened := false, osClosed := false } := by
  simp [openPort, h]

/-- Witness for C8 at a concrete input. -/
theorem openPort_idempotent_witness :
    (4 : Int) ≥ 0 ∧
    openPort 4 (OsEnv.mk (some 9) true true) 19200 =
      { fd := 4, ok := true, appliedBaud := none,
        osOpened := false, osClosed := false } :=
  ⟨by decide, openPort_idempotent 4 (OsEnv.mk (some 9) true true) 19200 (by decide)⟩

/-- C9: for every decoded frame, the Receiver Loop's dispatch step invokes
the callback (with the frame's tag and the first `len` bytes of its data
buffer) exactly when the frame's message id is the one recognized JFI id;
every other message id is dropped without a callback. -/
theorem recvLoop_dispatch_iff (f : MavFrame) :
    (f.msgid = MSG_ID_JFI →
       handleMessage f =
         some (jfiTid f.payload, (jfiData f.payload).take (jfiLen f.payload))) ∧
    (f.msgid ≠ MSG_ID_JFI → handleMessage f = none) := by
  constructor <;> intro h <;> simp [handleMessage, h]

/-- Witness for C9: a JFI frame is dispatched, a frame with another message
id is dropped. -/
theorem recvLoop_dispatch_iff_witness :
    handleMessage (sendFrame 1 1 2 [9]) =
      some (jfiTid (sendFrame 1 1 2 [9]).payload,
            (jfiData (sendFrame 1 1 2 [9]).payload).take
              (jfiLen (sendFrame 1 1 2 [9]).payload)) ∧
    handleMessage ⟨66, 0, 1, 1, 0, []⟩ = none :=
  ⟨(recvLoop_dispatch_iff (sendFrame 1 1 2 [9])).1 rfl,
   (recvLoop_dispatch_iff ⟨66, 0, 1, 1, 0, []⟩).2 (by decide)⟩

/-- C10: `init` stores the callback and the identity pair before attempting
to open the port, so they hold the new values even when `init` fails, and a
subsequent `send` encodes frames stamped with the new identity. -/
theorem init_stores_before_open (s : FacadeState) (env : OsEnv) (cb : Nat)
    (baud : Int) (sysId compId tid : Nat) (data : List Nat) :
    (init s env cb baud sysId compId).state.callback = some cb ∧
    (init s env cb baud sysId compId).state.sysId = sysId ∧
    (init s env cb baud sysId compId).state.compId = compId ∧
    (env.openRet = none → s.fd < 0 →
       (init s env cb baud sysId compId).ok = false) ∧
    (send (init s env cb baud sysId compId).state tid data).encoded =
      sendEncode sysId compId tid data := by
  refine ⟨?_, ?_, ?_, ?_, ?_⟩
  · cases h : (openPort s.fd env baud).ok <;> simp [init, h]
  · cases h : (openPort s.fd env baud).ok <;> simp [init, h]
  · cases h : (openPort s.fd env baud).ok <;> simp [init, h]
  · intro h1 h2
    simp [init, openPort, h1, not_le.mpr h2]
  · cases h : (openPort s.fd env baud).ok <;> simp [init, h, send]

/-- Witness for C10 at a concrete input (open fails, identity still
overwritten and used by `send`). -/
theorem init_stores_before_open_witness :
    (init freshState (OsEnv.mk none true true) 9 0 42 24).state.callback = some 9 ∧
    (init freshState (OsEnv.mk none true true) 9 0 42 24).state.sysId = 42 ∧
    (init freshState (OsEnv.mk none true true) 9 0 42 24).state.compId = 24 ∧
    ((OsEnv.mk none true true).openRet = none → freshState.fd < 0 →
       (init freshState (OsEnv.mk none true true) 9 0 42 24).ok = false) ∧
    (send (init freshState (OsEnv.mk none true true) 9 0 42 24).state 1 [5]).encoded =
      sendEncode 42 24 1 [5] :=
  init_stores_before_open freshState (OsEnv.mk none true true) 9 0 42 24 1 [5]

end JFi
